import Mathlib

set_option linter.unusedVariables false

/-!
Shallow embedding of the push-notification WebView bridge app
(src/components/WebViewBridge.tsx, src/services/NotificationService.ts,
src/app/(tabs)/index.tsx).

JSON values exchanged over the bridge transport are modelled by the
inductive type JValue (numbers abstracted to integers). A raw inbound
message string is modelled by the result of JSON.parse on it: an
Option JValue, where none stands for a string that is not valid JSON.
Parsed objects are assoc lists; JSON.parse collapses duplicate keys, so
parsed objects are assumed key-unique and field access is first-match
lookup. External collaborators (OS notification calls, fetch) are
modelled by environment records carrying each call's outcome; a value of
type Except String A is the outcome of a call that may reject with an
error whose message is the String.
-/

inductive JValue where
  | null : JValue
  | bool : Bool → JValue
  | num : Int → JValue
  | str : String → JValue
  | arr : List JValue → JValue
  | obj : List (String × JValue) → JValue
deriving Repr

/-- Field access on a parsed JSON value: property lookup on an object,
undefined (none) on everything else. In JS, property access on a
non-object primitive yields undefined rather than raising, except on
null, which the dispatch code handles separately. -/
def JValue.getField : JValue → String → Option JValue
  | .obj fields, key => fields.lookup key
  | _, _ => none

/-- JS truthiness of a JSON value: null, false, 0 and the empty string
are falsy; every object and array is truthy. -/
def jsTruthy : JValue → Bool
  | .null => false
  | .bool b => b
  | .num n => n != 0
  | .str s => s != ""
  | .arr _ => true
  | .obj _ => true

mutual

/-- JS String(v) conversion of a JSON value: null prints as "null",
booleans and numbers print their literal, arrays join their elements
with commas (null elements join as empty), plain objects print as
"[object Object]". -/
def jsStringValue : JValue → String
  | .null => "null"
  | .bool b => if b then "true" else "false"
  | .num n => toString n
  | .str s => s
  | .arr xs => jsStringElems xs
  | .obj _ => "[object Object]"

/-- Array.prototype.toString element joining: elements separated by
commas, null elements rendered as the empty string. -/
def jsStringElems : List JValue → String
  | [] => ""
  | [JValue.null] => ""
  | [x] => jsStringValue x
  | JValue.null :: xs => "," ++ jsStringElems xs
  | x :: xs => jsStringValue x ++ "," ++ jsStringElems xs

end

/-- JS string conversion of a possibly-undefined value, as used in
template literals: undefined prints as "undefined". -/
def jsShow : Option JValue → String
  | none => "undefined"
  | some v => jsStringValue v

/-- JS logical-or on possibly-undefined strings: the left operand is
kept when it is truthy (present and non-empty), otherwise the right
operand is returned as-is. -/
def jsOrStr : Option String → Option String → Option String
  | some s, b => if s = "" then b else some s
  | none, b => b

example : jsStringValue (.arr [.num 1, .null, .str "x"]) = "1,,x" := by rfl
example : jsShow (some (.obj [])) = "[object Object]" := by rfl
example : jsOrStr (some "") (some "y") = some "y" := by rfl

/-!
NotificationService (src/services/NotificationService.ts).

The singleton service's mutable state is the cached push token. Each
call of the service to an external collaborator (expo-notifications,
expo-device, fetch) reads its outcome from an environment record and is
recorded as an Effect so that theorems can speak about which external
calls a code path performs.
-/

/-- Mutable state of the NotificationService singleton: the cached
expoPushToken field (null when unregistered). -/
structure ServiceState where
  expoPushToken : Option String
deriving Repr, DecidableEq

/-- NotificationData as exchanged with the web app: title, body and an
optional structured data payload. -/
structure NotificationData where
  title : String
  body : String
  data : Option JValue
deriving Repr

/-- Observable external call performed by the service. -/
inductive Effect where
  | checkPermissions : Effect
  | requestPermissions : Effect
  | getDeviceToken : Effect
  | httpSaveToken : String → String → Effect
  | setupChannel : Effect
  | httpSendNotification : String → String → String → String → JValue → Effect
  | scheduleLocal : String → String → JValue → Effect
  | httpLegacySend : String → String → String → Option String → Effect
  | expoPushSend : String → String → String → JValue → Effect
deriving Repr

/-- HTTP response as seen by the service: the ok flag (status in the
2xx range) and the JSON-decoded body. A fetch whose network transfer or
body decode fails is an Except.error in the environment instead. -/
structure HttpResp where
  ok : Bool
  body : JValue
deriving Repr

/-- Environment for the OS-level calls made during registration. -/
structure OsEnv where
  isDevice : Bool
  executionEnvironment : String
  appOwnership : Option String
  getPermissionsResult : Except String String
  requestPermissionsResult : Except String String
  cfgEasProjectId : Option String
  easConfigProjectId : Option String
  envProjectId : Option String
  getDevicePushTokenResult : Except String String
  platformIsAndroid : Bool
  setupChannelResult : Except String Unit

/-- Environment for the backend HTTP calls: the two configuration
sources for the backend base URL and the outcome of the
send-notification fetch. -/
structure BackendEnv where
  cfgBackendUrl : Option String
  envBackendUrl : Option String
  sendNotificationResult : Except String HttpResp

/-- Combined environment seen by the bridge. -/
structure BridgeEnv where
  os : OsEnv
  backend : BackendEnv

/-- isRunningInExpoGo: execution environment is the store client or the
app ownership is the expo sandbox. -/
def isRunningInExpoGo (env : OsEnv) : Bool :=
  env.executionEnvironment == "storeClient" || env.appOwnership == some "expo"

/-- resolveProjectId: expoConfig extra eas projectId, else easConfig
projectId, else the EXPO_PROJECT_ID environment variable, combined with
JS logical-or (empty strings fall through). -/
def resolveProjectId (env : OsEnv) : Option String :=
  jsOrStr (jsOrStr env.cfgEasProjectId env.easConfigProjectId) env.envProjectId

/-- getBackendBaseUrl: config override, else environment override, else
the hardcoded fallback URL, combined with JS logical-or. -/
def getBackendBaseUrl (env : BackendEnv) : Option String :=
  jsOrStr (jsOrStr env.cfgBackendUrl env.envBackendUrl)
    (some "https://5fd5bd8a6a0c.ngrok-free.app")

/-- sendTokenToBackend: resolve the backend URL; when it is falsy, warn
and return without a request; otherwise POST the token to /save-token.
A fetch failure is caught and logged, so the call never rejects and the
fetch attempt is the only observable effect. -/
def sendTokenToBackend (env : BackendEnv) (token : String) : List Effect :=
  match getBackendBaseUrl env with
  | none => []
  | some url => if url = "" then [] else [Effect.httpSaveToken url token]

/-- Tail of the try block of registerForPushNotifications once the
permission is granted: project-id check, device token acquisition
(which assigns the expoPushToken field), best-effort token upload, and
Android channel setup. effs carries the effects performed so far. -/
def registerAfterPermission (env : BridgeEnv) (st : ServiceState)
    (effs : List Effect) :
    ServiceState × List Effect × Except String (Option String) :=
  match resolveProjectId env.os with
  | none => (st, effs, Except.ok (none : Option String))
  | some pid =>
    if pid = "" then (st, effs, Except.ok (none : Option String))
    else
      match env.os.getDevicePushTokenResult with
      | .error e => (st, effs ++ [Effect.getDeviceToken], .error e)
      | .ok tok =>
        let st1 : ServiceState := { expoPushToken := some tok }
        let effs1 := effs ++ [Effect.getDeviceToken] ++
          (if tok = "" then [] else sendTokenToBackend env.backend tok)
        if env.os.platformIsAndroid then
          match env.os.setupChannelResult with
          | .error e => (st1, effs1 ++ [Effect.setupChannel], .error e)
          | .ok _ => (st1, effs1 ++ [Effect.setupChannel], .ok (some tok))
        else (st1, effs1, .ok (some tok))

/-- Whole try block of registerForPushNotifications: permission query,
optional permission request, then the post-permission tail. The Except
result is the outcome of the try region: an error is a rejection that
the enclosing catch will swallow. State and effects accumulated before
a rejection are kept. -/
def registerAttempt (env : BridgeEnv) (st : ServiceState) :
    ServiceState × List Effect × Except String (Option String) :=
  match env.os.getPermissionsResult with
  | .error e => (st, [Effect.checkPermissions], .error e)
  | .ok existingStatus =>
    if existingStatus = "granted" then
      registerAfterPermission env st [Effect.checkPermissions]
    else
      match env.os.requestPermissionsResult with
      | .error e => (st, [Effect.checkPermissions, Effect.requestPermissions], .error e)
      | .ok status =>
        if status = "granted" then
          registerAfterPermission env st
            [Effect.checkPermissions, Effect.requestPermissions]
        else (st, [Effect.checkPermissions, Effect.requestPermissions],
              .ok (none : Option String))

/-- registerForPushNotifications: early null return off-device or in
Expo Go; otherwise run the try region and catch any rejection, logging
it and returning null. The returned Option String is the value the
async function resolves with; the translation is total because the
catch covers the whole fallible region. -/
def registerForPushNotifications (env : BridgeEnv) (st : ServiceState) :
    ServiceState × List Effect × Option String :=
  if !env.os.isDevice then (st, [], none)
  else if isRunningInExpoGo env.os then (st, [], none)
  else
    match registerAttempt env st with
    | (st1, effs, .ok v) => (st1, effs, v)
    | (st1, effs, .error _) => (st1, effs, none)

/-- sendLocalNotification: schedule an immediate notification with the
data payload defaulted to an empty object; scheduling failures are
caught and logged, so the call never rejects. -/
def sendLocalNotification (nd : NotificationData) : List Effect :=
  [Effect.scheduleLocal nd.title nd.body (nd.data.getD (JValue.obj []))]

/-- Outcome of sendPushNotificationViaBackend: skipped for lack of a
token, skipped for lack of a backend URL, or completed with the fetch
attempted — carrying the message of the rethrown error when the request
failed. -/
inductive SendViaBackendOutcome where
  | unregisteredSkip : SendViaBackendOutcome
  | missingConfigSkip : SendViaBackendOutcome
  | completed : Option String → SendViaBackendOutcome
deriving Repr, DecidableEq

/-- Message of the error constructed on a non-2xx response: reading the
error property of a null JSON body raises a TypeError (whose
engine-specific text is modeled by a representative string); otherwise
the server-supplied error field is used when truthy (string-coerced
through the Error constructor), else the generic failure message. -/
def backendFailureMessage : JValue → String
  | JValue.null => "Cannot read properties of null reading error"
  | body =>
    match body.getField "error" with
    | some v =>
      if jsTruthy v then jsStringValue v
      else "Failed to request backend notification"
    | none => "Failed to request backend notification"

/-- sendPushNotificationViaBackend: early return when the cached token
is falsy (null or the empty string); early return when the backend URL
is falsy; otherwise POST to /send-notification. A rejected fetch or
body decode is logged and rethrown; a non-2xx response raises an error
with the backendFailureMessage of its body, logged and rethrown. -/
def sendPushNotificationViaBackend (env : BackendEnv) (st : ServiceState)
    (nd : NotificationData) : SendViaBackendOutcome × List Effect :=
  match st.expoPushToken with
  | none => (.unregisteredSkip, [])
  | some tok =>
    if tok = "" then (.unregisteredSkip, [])
    else
      match getBackendBaseUrl env with
      | none => (.missingConfigSkip, [])
      | some url =>
        if url = "" then (.missingConfigSkip, [])
        else
          let eff := Effect.httpSendNotification url tok nd.title nd.body
            (nd.data.getD (JValue.obj []))
          match env.sendNotificationResult with
          | .error m => (.completed (some m), [eff])
          | .ok r =>
            if r.ok then (.completed none, [eff])
            else (.completed (some (backendFailureMessage r.body)), [eff])

/-- requestBackendToSendNotification: best-effort POST of a title, body
and the current token to /send-notification; failures swallowed. -/
def requestBackendToSendNotification (env : BackendEnv) (st : ServiceState)
    (title body : String) : List Effect :=
  match getBackendBaseUrl env with
  | none => []
  | some url =>
    if url = "" then []
    else [Effect.httpLegacySend url title body st.expoPushToken]

/-- sendPushNotification: direct POST to the public push endpoint when
the cached token is truthy (non-null and non-empty); failures
swallowed. -/
def sendPushNotification (st : ServiceState) (nd : NotificationData) : List Effect :=
  match st.expoPushToken with
  | none => []
  | some tok =>
    if tok = "" then []
    else [Effect.expoPushSend tok nd.title nd.body (nd.data.getD (JValue.obj []))]

/-- getExpoPushToken: pure accessor of the cached token. -/
def getExpoPushToken (st : ServiceState) : Option String :=
  st.expoPushToken

/-- The operations of the NotificationService singleton that touch or
could touch its state. -/
inductive ServiceOp where
  | register : BridgeEnv → ServiceOp
  | sendToken : BackendEnv → String → ServiceOp
  | requestBackendSend : BackendEnv → String → String → ServiceOp
  | sendLocal : NotificationData → ServiceOp
  | sendPush : NotificationData → ServiceOp
  | sendViaBackend : BackendEnv → NotificationData → ServiceOp
  | readToken : ServiceOp

/-- State transformer of each service operation; only registration
writes the token field. -/
def applyServiceOp (op : ServiceOp) (st : ServiceState) : ServiceState :=
  match op with
  | .register env => (registerForPushNotifications env st).1
  | .sendToken _ _ => st
  | .requestBackendSend _ _ _ => st
  | .sendLocal _ => st
  | .sendPush _ => st
  | .sendViaBackend _ _ => st
  | .readToken => st

/-!
Bridge protocol (src/components/WebViewBridge.tsx).

An inbound raw message is its JSON.parse outcome (Option JValue). The
host dispatch runs the handler and the request guard, producing the
list of messages posted to the web view, the updated service state and
the external effects performed.
-/

/-- BridgeResponse as posted to the web view. The requestId field holds
the raw JSON value threaded from the request (success paths copy the
request field verbatim; the guard path carries the best-effort
recovered string). A none field is an undefined property, dropped by
JSON.stringify. -/
structure BridgeResponse where
  type : String
  requestId : Option JValue
  payload : Option JValue
  error : Option String
deriving Repr

/-- parsedRequestId: best-effort secondary parse of the raw message,
returning its requestId field only when that field is a string. -/
def parsedRequestId (raw : Option JValue) : Option String :=
  match raw with
  | none => none
  | some parsed =>
    match parsed.getField "requestId" with
    | some (.str s) => some s
    | _ => none

/-- String coercion applied to a present title or body field:
strings pass through, null (after the nullish-coalescing default)
becomes the empty string, every other value goes through String(). -/
def coerceToString : JValue → String
  | .str s => s
  | .null => ""
  | v => jsStringValue v

/-- The optional data field kept by toNotificationData: kept when it is
an object or array (typeof object and non-null), dropped otherwise. -/
def keptDataField : Option JValue → Option JValue
  | some (JValue.obj fields) => some (JValue.obj fields)
  | some (JValue.arr xs) => some (JValue.arr xs)
  | _ => none

/-- Boolean form of the shape test of toNotificationData: the payload
is an object owning both a title and a body property. -/
def hasTitleAndBody : Option JValue → Bool
  | some (JValue.obj fields) =>
    (fields.lookup "title").isSome && (fields.lookup "body").isSome
  | _ => false

/-- toNotificationData: accept an object payload owning title and body
properties, coercing both to strings and keeping a structured data
field; every other shape raises the invalid-payload error. -/
def toNotificationData (payload : Option JValue) : Except String NotificationData :=
  match payload with
  | some (JValue.obj fields) =>
    match fields.lookup "title", fields.lookup "body" with
    | some t, some b =>
      .ok { title := coerceToString t
            body := coerceToString b
            data := keptDataField (fields.lookup "data") }
    | _, _ => .error "Invalid notification payload received from web app"
  | _ => .error "Invalid notification payload received from web app"

/-- Result of running the guarded handler body: messages it posted,
the service state and effects after it ran, and the message of the
error it raised, if any. -/
structure HandlerOutcome where
  posts : List BridgeResponse
  state : ServiceState
  effects : List Effect
  thrown : Option String
deriving Repr

/-- REQUEST_PUSH_TOKEN branch: answer with the cached token, invoking
registration first when none is cached; the response carries the token
or JSON null. -/
def handleRequestPushToken (requestId : Option JValue) (st : ServiceState)
    (env : BridgeEnv) : HandlerOutcome :=
  match st.expoPushToken with
  | some t =>
    { posts := [{ type := "PUSH_TOKEN", requestId := requestId
                  payload := some (JValue.obj [("token", JValue.str t)])
                  error := none }]
      state := st, effects := [], thrown := none }
  | none =>
    let reg := registerForPushNotifications env st
    let tokenJson := match reg.2.2 with
      | some s => JValue.str s
      | none => JValue.null
    { posts := [{ type := "PUSH_TOKEN", requestId := requestId
                  payload := some (JValue.obj [("token", tokenJson)])
                  error := none }]
      state := reg.1, effects := reg.2.1, thrown := none }

/-- SEND_PUSH_VIA_BACKEND branch: validate the payload, relay it to the
backend, and post SUCCESS unless the relay rethrew. -/
def handleSendViaBackend (requestId payload : Option JValue) (st : ServiceState)
    (env : BridgeEnv) : HandlerOutcome :=
  match toNotificationData payload with
  | .error m => { posts := [], state := st, effects := [], thrown := some m }
  | .ok nd =>
    match (sendPushNotificationViaBackend env.backend st nd).1 with
    | .completed (some m) =>
      { posts := [], state := st
        effects := (sendPushNotificationViaBackend env.backend st nd).2
        thrown := some m }
    | _ =>
      { posts := [{ type := "SUCCESS", requestId := requestId
                    payload := some (JValue.obj
                      [("action", JValue.str "SEND_PUSH_VIA_BACKEND")])
                    error := none }]
        state := st, effects := (sendPushNotificationViaBackend env.backend st nd).2
        thrown := none }

/-- SEND_LOCAL_NOTIFICATION branch: validate the payload, schedule the
local notification (which never rejects) and post SUCCESS. -/
def handleSendLocal (requestId payload : Option JValue) (st : ServiceState) :
    HandlerOutcome :=
  match toNotificationData payload with
  | .error m => { posts := [], state := st, effects := [], thrown := some m }
  | .ok nd =>
    { posts := [{ type := "SUCCESS", requestId := requestId
                  payload := some (JValue.obj
                    [("action", JValue.str "SEND_LOCAL_NOTIFICATION")])
                  error := none }]
      state := st, effects := sendLocalNotification nd, thrown := none }

/-- Switch of the dispatch on the request type field; an unrecognized
type raises the unknown-type error carrying the offending value. -/
def dispatchParsed (parsed : JValue) (st : ServiceState) (env : BridgeEnv) :
    HandlerOutcome :=
  let requestId := parsed.getField "requestId"
  let payload := parsed.getField "payload"
  match parsed.getField "type" with
  | some (JValue.str "REQUEST_PUSH_TOKEN") => handleRequestPushToken requestId st env
  | some (JValue.str "SEND_PUSH_VIA_BACKEND") =>
    handleSendViaBackend requestId payload st env
  | some (JValue.str "SEND_LOCAL_NOTIFICATION") => handleSendLocal requestId payload st
  | ty =>
    { posts := [], state := st, effects := []
      thrown := some ("Unknown bridge request type: " ++ jsShow ty) }

/-- Guarded handler body of handleBridgeRequest: an unparseable raw
string raises the parse error; destructuring a parsed null raises a
TypeError; anything else is dispatched on its type field. -/
def bridgeHandler (raw : Option JValue) (st : ServiceState) (env : BridgeEnv) :
    HandlerOutcome :=
  match raw with
  | none =>
    { posts := [], state := st, effects := []
      thrown := some "Unable to parse bridge payload from web view" }
  | some JValue.null =>
    { posts := [], state := st, effects := []
      thrown := some "Cannot destructure property type of parsed as it is null" }
  | some parsed => dispatchParsed parsed st env

/-- ERROR response built by the request guard: the recovered requestId,
the raised error's message, and a payload whose context field is the
handler tag. -/
def guardErrorResponse (requestId : Option String) (errorContext : Option String)
    (msg : String) : BridgeResponse :=
  { type := "ERROR"
    requestId := requestId.map JValue.str
    payload := some (JValue.obj
      (match errorContext with
       | some c => [("context", JValue.str c)]
       | none => []))
    error := some msg }

/-- withRequestGuard: the handler's posts go through unchanged; an
error raised by the handler is caught here — never propagated — and
converted into one ERROR response. -/
def withRequestGuard (o : HandlerOutcome) (requestId : Option String)
    (errorContext : Option String) : List BridgeResponse :=
  o.posts ++
    (match o.thrown with
     | some m => [guardErrorResponse requestId errorContext m]
     | none => [])

/-- Result of one inbound bridge message: everything posted to the web
view, the service state afterwards, and the external effects performed. -/
structure DispatchResult where
  responses : List BridgeResponse
  state : ServiceState
  effects : List Effect
deriving Repr

/-- handleBridgeRequest: run the guarded handler on the raw message,
threading the best-effort recovered requestId and the static context
tag into the guard. -/
def handleBridgeRequest (raw : Option JValue) (st : ServiceState) (env : BridgeEnv) :
    DispatchResult :=
  let o := bridgeHandler raw st env
  { responses := withRequestGuard o (parsedRequestId raw) (some "handleBridgeRequest")
    state := o.state
    effects := o.effects }

/-- Body of the readiness effect: once the web view is ready, push the
cached token as an unsolicited PUSH_TOKEN event with no requestId, but
only when it is truthy (the source guards with a JS truthiness check,
so a cached empty-string token posts nothing); before readiness, or
with no cached token, post nothing. -/
def webReadyEffect (isWebReady : Bool) (token : Option String) : List BridgeResponse :=
  if isWebReady then
    match token with
    | some t =>
      if t = "" then []
      else
        [{ type := "PUSH_TOKEN", requestId := none
           payload := some (JValue.obj [("token", JValue.str t)]), error := none }]
    | none => []
  else []

/-- handleLoadEnd: sets the readiness flag to true. Setting state to
the value it already holds is a React bail-out and re-renders nothing;
on a false-to-true transition the effect keyed on the flag re-runs and
posts the readiness message. Returns the new flag and the messages the
transition posts. -/
def handleLoadEnd (token : Option String) (isWebReady : Bool) :
    Bool × List BridgeResponse :=
  if isWebReady then (true, [])
  else (true, webReadyEffect true token)

/-!
Concrete sample data used to evaluate the definitions at explicit
inputs.
-/

/-- Sample OS environment in which registration fully succeeds. -/
def sampleOsEnv : OsEnv :=
  { isDevice := true
    executionEnvironment := "bare"
    appOwnership := none
    getPermissionsResult := .ok "granted"
    requestPermissionsResult := .ok "granted"
    cfgEasProjectId := some "pid"
    easConfigProjectId := none
    envProjectId := none
    getDevicePushTokenResult := .ok "device-token"
    platformIsAndroid := false
    setupChannelResult := .ok () }

/-- Sample backend environment with no configured overrides and a
successful send-notification response. -/
def sampleBackendEnv : BackendEnv :=
  { cfgBackendUrl := none
    envBackendUrl := none
    sendNotificationResult := .ok { ok := true, body := JValue.obj [] } }

/-- Sample combined environment. -/
def sampleEnv : BridgeEnv :=
  { os := sampleOsEnv, backend := sampleBackendEnv }

/-- Sample service state with no cached token. -/
def sampleSt : ServiceState := { expoPushToken := none }

/-!
Helper lemmas about the dispatch.
-/

/-- On any parsed non-null message, the guarded handler is the type
dispatch. -/
theorem bridgeHandler_some (parsed : JValue) (st : ServiceState) (env : BridgeEnv)
    (hne : parsed ≠ JValue.null) :
    bridgeHandler (some parsed) st env = dispatchParsed parsed st env := by
  cases parsed <;> first | rfl | exact absurd rfl hne

/-- Every branch of the type dispatch either posts exactly one response
carrying the request message's requestId field and raises nothing, or
posts nothing and raises an error. -/
theorem handleRequestPushToken_shape (requestId : Option JValue)
    (st : ServiceState) (env : BridgeEnv) :
    ∃ r, (handleRequestPushToken requestId st env).posts = [r] ∧
      r.requestId = requestId ∧
      (handleRequestPushToken requestId st env).thrown = none := by
  unfold handleRequestPushToken
  split
  · exact ⟨_, rfl, rfl, rfl⟩
  · exact ⟨_, rfl, rfl, rfl⟩

theorem handleSendViaBackend_shape (requestId payload : Option JValue)
    (st : ServiceState) (env : BridgeEnv) :
    (∃ r, (handleSendViaBackend requestId payload st env).posts = [r] ∧
      r.requestId = requestId ∧
      (handleSendViaBackend requestId payload st env).thrown = none) ∨
    ((handleSendViaBackend requestId payload st env).posts = [] ∧
      ∃ m, (handleSendViaBackend requestId payload st env).thrown = some m) := by
  unfold handleSendViaBackend
  split
  · exact Or.inr ⟨rfl, _, rfl⟩
  · split
    · exact Or.inr ⟨rfl, _, rfl⟩
    · exact Or.inl ⟨_, rfl, rfl, rfl⟩

theorem handleSendLocal_shape (requestId payload : Option JValue)
    (st : ServiceState) :
    (∃ r, (handleSendLocal requestId payload st).posts = [r] ∧
      r.requestId = requestId ∧
      (handleSendLocal requestId payload st).thrown = none) ∨
    ((handleSendLocal requestId payload st).posts = [] ∧
      ∃ m, (handleSendLocal requestId payload st).thrown = some m) := by
  unfold handleSendLocal
  split
  · exact Or.inr ⟨rfl, _, rfl⟩
  · exact Or.inl ⟨_, rfl, rfl, rfl⟩

/-- Every branch of the type dispatch either posts exactly one response
carrying the request message's requestId field and raises nothing, or
posts nothing and raises an error. -/
theorem dispatchParsed_shape (parsed : JValue) (st : ServiceState) (env : BridgeEnv) :
    (∃ r, (dispatchParsed parsed st env).posts = [r] ∧
      r.requestId = parsed.getField "requestId" ∧
      (dispatchParsed parsed st env).thrown = none) ∨
    ((dispatchParsed parsed st env).posts = [] ∧
      ∃ m, (dispatchParsed parsed st env).thrown = some m) := by
  unfold dispatchParsed
  split
  · rcases handleRequestPushToken_shape (parsed.getField "requestId") st env with
      ⟨r, hp, hr, ht⟩
    exact Or.inl ⟨r, hp, hr, ht⟩
  · exact handleSendViaBackend_shape _ _ st env
  · exact handleSendLocal_shape _ _ st
  · exact Or.inr ⟨rfl, _, rfl⟩

/-- When the guarded handler raises, it has posted nothing. -/
theorem bridgeHandler_thrown_posts (raw : Option JValue) (st : ServiceState)
    (env : BridgeEnv) (m : String)
    (h : (bridgeHandler raw st env).thrown = some m) :
    (bridgeHandler raw st env).posts = [] := by
  match raw with
  | none => rfl
  | some JValue.null => rfl
  | some (JValue.bool b) =>
    rcases dispatchParsed_shape (JValue.bool b) st env with ⟨r, _, _, ht⟩ | ⟨hp, _⟩
    · rw [bridgeHandler_some _ _ _ (by simp)] at h; simp [ht] at h
    · rw [bridgeHandler_some _ _ _ (by simp)]; exact hp
  | some (JValue.num n) =>
    rcases dispatchParsed_shape (JValue.num n) st env with ⟨r, _, _, ht⟩ | ⟨hp, _⟩
    · rw [bridgeHandler_some _ _ _ (by simp)] at h; simp [ht] at h
    · rw [bridgeHandler_some _ _ _ (by simp)]; exact hp
  | some (JValue.str s) =>
    rcases dispatchParsed_shape (JValue.str s) st env with ⟨r, _, _, ht⟩ | ⟨hp, _⟩
    · rw [bridgeHandler_some _ _ _ (by simp)] at h; simp [ht] at h
    · rw [bridgeHandler_some _ _ _ (by simp)]; exact hp
  | some (JValue.arr xs) =>
    rcases dispatchParsed_shape (JValue.arr xs) st env with ⟨r, _, _, ht⟩ | ⟨hp, _⟩
    · rw [bridgeHandler_some _ _ _ (by simp)] at h; simp [ht] at h
    · rw [bridgeHandler_some _ _ _ (by simp)]; exact hp
  | some (JValue.obj fields) =>
    rcases dispatchParsed_shape (JValue.obj fields) st env with ⟨r, _, _, ht⟩ | ⟨hp, _⟩
    · rw [bridgeHandler_some _ _ _ (by simp)] at h; simp [ht] at h
    · rw [bridgeHandler_some _ _ _ (by simp)]; exact hp

/-- C1: every inbound bridge message whose raw string is valid JSON
containing a string requestId field receives exactly one BridgeResponse
carrying that same requestId, whether dispatch succeeds or the guard
answers with an ERROR response. -/
theorem bridge_request_id_threading (fields : List (String × JValue))
    (rid : String) (st : ServiceState) (env : BridgeEnv)
    (h : fields.lookup "requestId" = some (JValue.str rid)) :
    ∃ r, (handleBridgeRequest (some (JValue.obj fields)) st env).responses = [r] ∧
      r.requestId = some (JValue.str rid) := by
  have hget : (JValue.obj fields).getField "requestId" = some (JValue.str rid) := h
  have hpr : parsedRequestId (some (JValue.obj fields)) = some rid := by
    simp [parsedRequestId, hget]
  have hbh : bridgeHandler (some (JValue.obj fields)) st env =
      dispatchParsed (JValue.obj fields) st env :=
    bridgeHandler_some _ _ _ (by simp)
  rcases dispatchParsed_shape (JValue.obj fields) st env with
    ⟨r, hp, hr, ht⟩ | ⟨hp, m, ht⟩
  · refine ⟨r, ?_, ?_⟩
    · simp [handleBridgeRequest, hbh, withRequestGuard, hp, ht]
    · rw [hr, hget]
  · refine ⟨guardErrorResponse (some rid) (some "handleBridgeRequest") m, ?_, ?_⟩
    · simp [handleBridgeRequest, hbh, withRequestGuard, hp, ht, hpr]
    · simp [guardErrorResponse]

/-- Witness for C1: a concrete message carrying only a string requestId
field (its missing type makes the dispatch fail) still gets exactly one
response with that requestId. -/
theorem bridge_request_id_threading_witness :
    ([(("requestId" : String), JValue.str "cid-7")].lookup "requestId" =
      some (JValue.str "cid-7")) ∧
    ∃ r, (handleBridgeRequest (some (JValue.obj [("requestId", JValue.str "cid-7")]))
        sampleSt sampleEnv).responses = [r] ∧
      r.requestId = some (JValue.str "cid-7") :=
  ⟨rfl, bridge_request_id_threading [("requestId", JValue.str "cid-7")]
    "cid-7" sampleSt sampleEnv rfl⟩

/-- Reduction of the dispatch at a message whose type field is the
push-token request literal. -/
theorem dispatchParsed_request_token (parsed : JValue) (st : ServiceState)
    (env : BridgeEnv)
    (hty : parsed.getField "type" = some (JValue.str "REQUEST_PUSH_TOKEN")) :
    dispatchParsed parsed st env =
      handleRequestPushToken (parsed.getField "requestId") st env := by
  unfold dispatchParsed
  rw [hty]
  rfl

/-- Reduction of the dispatch at a message whose type field is the
backend-send literal. -/
theorem dispatchParsed_send_backend (parsed : JValue) (st : ServiceState)
    (env : BridgeEnv)
    (hty : parsed.getField "type" = some (JValue.str "SEND_PUSH_VIA_BACKEND")) :
    dispatchParsed parsed st env =
      handleSendViaBackend (parsed.getField "requestId")
        (parsed.getField "payload") st env := by
  unfold dispatchParsed
  rw [hty]
  rfl

/-- Reduction of the dispatch at a message whose type field is the
local-send literal. -/
theorem dispatchParsed_send_local (parsed : JValue) (st : ServiceState)
    (env : BridgeEnv)
    (hty : parsed.getField "type" = some (JValue.str "SEND_LOCAL_NOTIFICATION")) :
    dispatchParsed parsed st env =
      handleSendLocal (parsed.getField "requestId")
        (parsed.getField "payload") st := by
  unfold dispatchParsed
  rw [hty]
  rfl

/-- A payload that is not an object owning both a title and a body
property is rejected by toNotificationData with the invalid-payload
error. -/
theorem toNotificationData_badShape (p : Option JValue)
    (h : hasTitleAndBody p = false) :
    toNotificationData p =
      .error "Invalid notification payload received from web app" := by
  match p with
  | none => rfl
  | some JValue.null => rfl
  | some (JValue.bool b) => rfl
  | some (JValue.num n) => rfl
  | some (JValue.str s) => rfl
  | some (JValue.arr xs) => rfl
  | some (JValue.obj fields) =>
    cases ht : fields.lookup "title" with
    | none => simp [toNotificationData, ht]
    | some t =>
      cases hb : fields.lookup "body" with
      | none => simp [toNotificationData, ht, hb]
      | some b =>
        exfalso
        simp [hasTitleAndBody, ht, hb] at h

/-- C4: for both send-type requests, a payload that is not an object
owning both a title and a body field makes dispatch answer with the
invalid-payload ERROR response and perform no Gateway or Relay call;
when both fields are present the values are coerced through JS string
conversion rather than rejected, with null coerced to the empty
string. -/
theorem send_payload_validation (fields : List (String × JValue)) (ty : String)
    (st : ServiceState) (env : BridgeEnv)
    (hty : fields.lookup "type" = some (JValue.str ty))
    (hsend : ty = "SEND_PUSH_VIA_BACKEND" ∨ ty = "SEND_LOCAL_NOTIFICATION") :
    (hasTitleAndBody ((JValue.obj fields).getField "payload") = false →
      (handleBridgeRequest (some (JValue.obj fields)) st env).responses =
        [guardErrorResponse (parsedRequestId (some (JValue.obj fields)))
          (some "handleBridgeRequest")
          "Invalid notification payload received from web app"] ∧
      (handleBridgeRequest (some (JValue.obj fields)) st env).effects = []) ∧
    (∀ gfields t b,
      (JValue.obj fields).getField "payload" = some (JValue.obj gfields) →
      gfields.lookup "title" = some t → gfields.lookup "body" = some b →
      toNotificationData ((JValue.obj fields).getField "payload") =
        Except.ok { title := coerceToString t, body := coerceToString b
                    data := keptDataField (gfields.lookup "data") }) ∧
    coerceToString JValue.null = "" := by
  have hbh : bridgeHandler (some (JValue.obj fields)) st env =
      dispatchParsed (JValue.obj fields) st env :=
    bridgeHandler_some _ _ _ (by simp)
  refine ⟨?_, ?_, rfl⟩
  · intro hbad
    have htd := toNotificationData_badShape _ hbad
    rcases hsend with h1 | h1 <;> subst h1
    · have hd := dispatchParsed_send_backend (JValue.obj fields) st env hty
      constructor
      · simp [handleBridgeRequest, hbh, hd, handleSendViaBackend, htd,
          withRequestGuard]
      · simp [handleBridgeRequest, hbh, hd, handleSendViaBackend, htd]
    · have hd := dispatchParsed_send_local (JValue.obj fields) st env hty
      constructor
      · simp [handleBridgeRequest, hbh, hd, handleSendLocal, htd,
          withRequestGuard]
      · simp [handleBridgeRequest, hbh, hd, handleSendLocal, htd]
  · intro gfields t b hp ht hb
    simp [toNotificationData, hp, ht, hb]

/-- Witness for C4: a local-send request whose payload misses the body
field gets the invalid-payload ERROR response and causes no external
effect. -/
def c4Fields : List (String × JValue) :=
  [("type", JValue.str "SEND_LOCAL_NOTIFICATION"),
   ("requestId", JValue.str "w4"),
   ("payload", JValue.obj [("title", JValue.str "T")])]

theorem send_payload_validation_witness :
    hasTitleAndBody ((JValue.obj c4Fields).getField "payload") = false ∧
    (handleBridgeRequest (some (JValue.obj c4Fields)) sampleSt sampleEnv).responses =
      [guardErrorResponse (parsedRequestId (some (JValue.obj c4Fields)))
        (some "handleBridgeRequest")
        "Invalid notification payload received from web app"] ∧
    (handleBridgeRequest (some (JValue.obj c4Fields)) sampleSt sampleEnv).effects =
      [] :=
  ⟨rfl, (send_payload_validation c4Fields "SEND_LOCAL_NOTIFICATION" sampleSt
    sampleEnv rfl (Or.inr rfl)).1 rfl⟩

/-- Concrete backend-send request with a well-formed payload, used
against a state with no cached token. -/
def c2Fields : List (String × JValue) :=
  [("type", JValue.str "SEND_PUSH_VIA_BACKEND"),
   ("requestId", JValue.str "req-1"),
   ("payload", JValue.obj [("title", JValue.str "T"), ("body", JValue.str "B")])]

/-- Counterexample to C2: dispatching a well-formed backend-send
request while no token is cached posts a SUCCESS response, not an
ERROR response, though indeed no HTTP effect is performed. -/
theorem sendViaBackend_noToken_counterexample :
    (handleBridgeRequest (some (JValue.obj c2Fields)) { expoPushToken := none }
        sampleEnv).responses =
      [{ type := "SUCCESS", requestId := some (JValue.str "req-1")
         payload := some (JValue.obj [("action", JValue.str "SEND_PUSH_VIA_BACKEND")])
         error := none }] ∧
    (handleBridgeRequest (some (JValue.obj c2Fields)) { expoPushToken := none }
        sampleEnv).effects = [] :=
  ⟨rfl, rfl⟩

/-- C2 amended: a well-formed SEND_PUSH_VIA_BACKEND request dispatched
while the current PushToken is null makes the relay skip silently (a
logged early return), so the embedded content receives a SUCCESS
response, no uncaught failure occurs, and no HTTP request is issued to
the backend. -/
theorem sendViaBackend_noToken_silent_success (fields : List (String × JValue))
    (st : ServiceState) (env : BridgeEnv) (nd : NotificationData)
    (hty : fields.lookup "type" = some (JValue.str "SEND_PUSH_VIA_BACKEND"))
    (htok : st.expoPushToken = none)
    (hpl : toNotificationData ((JValue.obj fields).getField "payload") =
      Except.ok nd) :
    (handleBridgeRequest (some (JValue.obj fields)) st env).responses =
      [{ type := "SUCCESS", requestId := fields.lookup "requestId"
         payload := some (JValue.obj [("action", JValue.str "SEND_PUSH_VIA_BACKEND")])
         error := none }] ∧
    (handleBridgeRequest (some (JValue.obj fields)) st env).effects = [] := by
  have hbh : bridgeHandler (some (JValue.obj fields)) st env =
      dispatchParsed (JValue.obj fields) st env :=
    bridgeHandler_some _ _ _ (by simp)
  have hd := dispatchParsed_send_backend (JValue.obj fields) st env hty
  have hsend : sendPushNotificationViaBackend env.backend st nd =
      (.unregisteredSkip, []) := by
    simp [sendPushNotificationViaBackend, htok]
  simp only [JValue.getField] at hpl
  constructor
  · simp [handleBridgeRequest, hbh, hd, handleSendViaBackend, hpl, hsend,
      withRequestGuard, JValue.getField]
  · simp [handleBridgeRequest, hbh, hd, handleSendViaBackend, hpl, hsend,
      JValue.getField]

/-- Witness for the amended C2 at the concrete request and an empty
state. -/
theorem sendViaBackend_noToken_silent_success_witness :
    toNotificationData ((JValue.obj c2Fields).getField "payload") =
      Except.ok { title := "T", body := "B", data := none } ∧
    (handleBridgeRequest (some (JValue.obj c2Fields)) { expoPushToken := none }
        sampleEnv).responses =
      [{ type := "SUCCESS", requestId := c2Fields.lookup "requestId"
         payload := some (JValue.obj [("action", JValue.str "SEND_PUSH_VIA_BACKEND")])
         error := none }] ∧
    (handleBridgeRequest (some (JValue.obj c2Fields)) { expoPushToken := none }
        sampleEnv).effects = [] :=
  ⟨rfl,
   (sendViaBackend_noToken_silent_success c2Fields { expoPushToken := none }
     sampleEnv { title := "T", body := "B", data := none } rfl rfl rfl).1,
   (sendViaBackend_noToken_silent_success c2Fields { expoPushToken := none }
     sampleEnv { title := "T", body := "B", data := none } rfl rfl rfl).2⟩

/-- C3: an error raised during decoding or dispatch is caught at the
dispatch boundary and converted into a single ERROR response carrying
the error's message and the static context tag handleBridgeRequest;
handleBridgeRequest is a total function of the message, so the error
never propagates past the handler. -/
theorem guard_converts_errors (raw : Option JValue) (st : ServiceState)
    (env : BridgeEnv) (msg : String)
    (h : (bridgeHandler raw st env).thrown = some msg) :
    (handleBridgeRequest raw st env).responses =
      [{ type := "ERROR"
         requestId := (parsedRequestId raw).map JValue.str
         payload := some (JValue.obj [("context", JValue.str "handleBridgeRequest")])
         error := some msg }] := by
  have hp := bridgeHandler_thrown_posts raw st env msg h
  simp [handleBridgeRequest, withRequestGuard, hp, h, guardErrorResponse]

/-- Witness for C3: an unparseable raw message produces exactly the
guard's ERROR response with the parse-error message and the context
tag. -/
theorem guard_converts_errors_witness :
    (bridgeHandler none sampleSt sampleEnv).thrown =
      some "Unable to parse bridge payload from web view" ∧
    (handleBridgeRequest none sampleSt sampleEnv).responses =
      [{ type := "ERROR"
         requestId := (parsedRequestId none).map JValue.str
         payload := some (JValue.obj [("context", JValue.str "handleBridgeRequest")])
         error := some "Unable to parse bridge payload from web view" }] :=
  ⟨rfl, guard_converts_errors none sampleSt sampleEnv
    "Unable to parse bridge payload from web view" rfl⟩

/-!
Lemmas about registration.
-/

/-- The post-permission tail either leaves the service state unchanged
or stores exactly the token issued by the OS device-token call. -/
theorem registerAfterPermission_state (env : BridgeEnv) (st : ServiceState)
    (effs : List Effect) :
    (registerAfterPermission env st effs).1 = st ∨
    ∃ tok, env.os.getDevicePushTokenResult = Except.ok tok ∧
      (registerAfterPermission env st effs).1 = { expoPushToken := some tok } := by
  unfold registerAfterPermission
  cases hpid : resolveProjectId env.os with
  | none => exact Or.inl rfl
  | some pid =>
    by_cases hp : pid = ""
    · simp [hp]
    · simp only [hp, if_false]
      cases hdt : env.os.getDevicePushTokenResult with
      | error e => exact Or.inl rfl
      | ok tok =>
        refine Or.inr ⟨tok, rfl, ?_⟩
        by_cases ha : env.os.platformIsAndroid
        · cases hch : env.os.setupChannelResult <;> simp [ha, hch]
        · simp [ha]

/-- The try block either leaves the service state unchanged or stores
exactly the token issued by the OS device-token call. -/
theorem registerAttempt_state (env : BridgeEnv) (st : ServiceState) :
    (registerAttempt env st).1 = st ∨
    ∃ tok, env.os.getDevicePushTokenResult = Except.ok tok ∧
      (registerAttempt env st).1 = { expoPushToken := some tok } := by
  unfold registerAttempt
  cases hperm : env.os.getPermissionsResult with
  | error e => exact Or.inl rfl
  | ok s =>
    by_cases hs : s = "granted"
    · simp only [hs, if_true]
      exact registerAfterPermission_state env st _
    · simp only [hs, if_false]
      cases hreq : env.os.requestPermissionsResult with
      | error e => exact Or.inl rfl
      | ok s2 =>
        by_cases hs2 : s2 = "granted"
        · simp only [hs2, if_true]
          exact registerAfterPermission_state env st _
        · simp only [hs2, if_false]
          left
          trivial

/-- Registration either leaves the service state unchanged or stores
exactly the token issued by the OS device-token call. -/
theorem registerForPushNotifications_state (env : BridgeEnv) (st : ServiceState) :
    (registerForPushNotifications env st).1 = st ∨
    ∃ tok, env.os.getDevicePushTokenResult = Except.ok tok ∧
      (registerForPushNotifications env st).1 = { expoPushToken := some tok } := by
  unfold registerForPushNotifications
  by_cases hd : env.os.isDevice
  · by_cases hg : isRunningInExpoGo env.os
    · simp [hd, hg]
    · simp only [hd, hg, Bool.not_true, if_false]
      rcases hra : registerAttempt env st with ⟨st1, effs, r⟩
      rcases registerAttempt_state env st with hs | ⟨tok, htk, hs⟩
      · rw [hra] at hs
        cases r <;> exact Or.inl hs
      · rw [hra] at hs
        cases r <;> exact Or.inr ⟨tok, htk, hs⟩
  · simp [hd]

/-- When permission ends denied, the try block resolves with null. -/
theorem registerAttempt_denied (env : BridgeEnv) (st : ServiceState)
    (s s2 : String)
    (hp : env.os.getPermissionsResult = Except.ok s) (hs : s ≠ "granted")
    (hr : env.os.requestPermissionsResult = Except.ok s2) (hs2 : s2 ≠ "granted") :
    (registerAttempt env st).2.2 = Except.ok none := by
  simp [registerAttempt, hp, hs, hr, hs2]

/-- When no project id resolves, the try block resolves with null. -/
theorem registerAttempt_no_project (env : BridgeEnv) (st : ServiceState)
    (hpid : resolveProjectId env.os = none ∨ resolveProjectId env.os = some "") :
    (registerAttempt env st).2.2 = Except.ok none ∨
    ∃ e, (registerAttempt env st).2.2 = Except.error e := by
  have hap : ∀ effs, (registerAfterPermission env st effs).2.2 = Except.ok none := by
    intro effs
    rcases hpid with hpid | hpid <;> simp [registerAfterPermission, hpid]
  unfold registerAttempt
  cases hperm : env.os.getPermissionsResult with
  | error e => exact Or.inr ⟨e, rfl⟩
  | ok s =>
    by_cases hs : s = "granted"
    · simp only [hs, if_true]
      exact Or.inl (hap _)
    · simp only [hs, if_false]
      cases hreq : env.os.requestPermissionsResult with
      | error e => exact Or.inr ⟨e, rfl⟩
      | ok s2 =>
        by_cases hs2 : s2 = "granted"
        · simp only [hs2, if_true]
          exact Or.inl (hap _)
        · simp only [hs2, if_false]
          left
          trivial

/-- When the try block resolves with v, registration returns v; when it
rejects, registration returns null. -/
theorem registerForPushNotifications_of_attempt (env : BridgeEnv)
    (st : ServiceState) (hd : env.os.isDevice = true)
    (hg : isRunningInExpoGo env.os = false) :
    ((∀ v, (registerAttempt env st).2.2 = Except.ok v →
      (registerForPushNotifications env st).2.2 = v) ∧
     (∀ e, (registerAttempt env st).2.2 = Except.error e →
      (registerForPushNotifications env st).2.2 = none)) := by
  unfold registerForPushNotifications
  rcases hra : registerAttempt env st with ⟨st1, effs, r⟩
  constructor
  · intro v hv
    simp only at hv
    subst hv
    simp [hd, hg, hra]
  · intro e he
    simp only at he
    subst he
    simp [hd, hg, hra]

/-- C5: registerForPushNotifications never throws: its translation is a
total function whose only outcomes are a token or null, and each
failure condition — non-physical device, Expo Go sandbox, denied
permission, missing project id, and any rejection raised by an
underlying OS call — resolves with null instead of propagating an
exception. -/
theorem register_never_throws (env : BridgeEnv) (st : ServiceState) :
    (env.os.isDevice = false →
      (registerForPushNotifications env st).2.2 = none) ∧
    (isRunningInExpoGo env.os = true →
      (registerForPushNotifications env st).2.2 = none) ∧
    (∀ s s2, env.os.getPermissionsResult = Except.ok s → s ≠ "granted" →
      env.os.requestPermissionsResult = Except.ok s2 → s2 ≠ "granted" →
      (registerForPushNotifications env st).2.2 = none) ∧
    ((resolveProjectId env.os = none ∨ resolveProjectId env.os = some "") →
      (registerForPushNotifications env st).2.2 = none) ∧
    (∀ e, (registerAttempt env st).2.2 = Except.error e →
      (registerForPushNotifications env st).2.2 = none) := by
  by_cases hd : env.os.isDevice
  · by_cases hg : isRunningInExpoGo env.os
    · have hnone : (registerForPushNotifications env st).2.2 = none := by
        simp [registerForPushNotifications, hd, hg]
      exact ⟨fun h => by rw [h] at hd; exact absurd hd (by simp),
        fun _ => hnone, fun _ _ _ _ _ _ => hnone, fun _ => hnone, fun _ _ => hnone⟩
    · have hof := registerForPushNotifications_of_attempt env st hd
        (by simp [hg])
      refine ⟨fun h => by rw [h] at hd; exact absurd hd (by simp),
        fun h => absurd h hg, ?_, ?_, hof.2⟩
      · intro s s2 hp hs hr hs2
        exact hof.1 none (registerAttempt_denied env st s s2 hp hs hr hs2)
      · intro hpid
        rcases registerAttempt_no_project env st hpid with h | ⟨e, h⟩
        · exact hof.1 none h
        · exact hof.2 e h
  · have hnone : (registerForPushNotifications env st).2.2 = none := by
      simp [registerForPushNotifications, hd]
    exact ⟨fun _ => hnone, fun _ => hnone, fun _ _ _ _ _ _ => hnone,
      fun _ => hnone, fun _ _ => hnone⟩

/-- Witness for C5: in an environment where the OS device-token call
rejects, registration still resolves with null. -/
def c5Env : BridgeEnv :=
  { os := { sampleOsEnv with getDevicePushTokenResult := Except.error "boom" }
    backend := sampleBackendEnv }

theorem register_never_throws_witness :
    (registerAttempt c5Env sampleSt).2.2 = Except.error "boom" ∧
    (registerForPushNotifications c5Env sampleSt).2.2 = none :=
  ⟨rfl, (register_never_throws c5Env sampleSt).2.2.2.2 "boom" rfl⟩

/-- With a cached token, one REQUEST_PUSH_TOKEN dispatch posts exactly
the PUSH_TOKEN response, leaves the state unchanged and performs no
external effect. -/
theorem request_token_cached (fields : List (String × JValue)) (st : ServiceState)
    (env : BridgeEnv) (t : String)
    (hty : fields.lookup "type" = some (JValue.str "REQUEST_PUSH_TOKEN"))
    (htok : st.expoPushToken = some t) :
    handleBridgeRequest (some (JValue.obj fields)) st env =
      { responses := [{ type := "PUSH_TOKEN", requestId := fields.lookup "requestId"
                        payload := some (JValue.obj [("token", JValue.str t)])
                        error := none }]
        state := st
        effects := [] } := by
  have hbh : bridgeHandler (some (JValue.obj fields)) st env =
      dispatchParsed (JValue.obj fields) st env :=
    bridgeHandler_some _ _ _ (by simp)
  have hd := dispatchParsed_request_token (JValue.obj fields) st env hty
  simp [handleBridgeRequest, hbh, hd, handleRequestPushToken, htok,
    withRequestGuard, JValue.getField]

/-- C7: after registration has succeeded once (a token is cached), two
consecutive REQUEST_PUSH_TOKEN dispatches both answer with that same
token, and neither — in particular not the second — performs a
registration or any backend POST (the effect lists are empty). -/
theorem request_token_idempotent (fields : List (String × JValue))
    (st : ServiceState) (env : BridgeEnv) (t : String)
    (hty : fields.lookup "type" = some (JValue.str "REQUEST_PUSH_TOKEN"))
    (htok : st.expoPushToken = some t) :
    (handleBridgeRequest (some (JValue.obj fields)) st env).responses =
      [{ type := "PUSH_TOKEN", requestId := fields.lookup "requestId"
         payload := some (JValue.obj [("token", JValue.str t)]), error := none }] ∧
    (handleBridgeRequest (some (JValue.obj fields)) st env).state = st ∧
    (handleBridgeRequest (some (JValue.obj fields)) st env).effects = [] ∧
    (handleBridgeRequest (some (JValue.obj fields))
        (handleBridgeRequest (some (JValue.obj fields)) st env).state env).responses =
      (handleBridgeRequest (some (JValue.obj fields)) st env).responses ∧
    (handleBridgeRequest (some (JValue.obj fields))
        (handleBridgeRequest (some (JValue.obj fields)) st env).state env).effects =
      [] := by
  have h1 := request_token_cached fields st env t hty htok
  refine ⟨?_, ?_, ?_, ?_, ?_⟩ <;> simp [h1]

/-- Witness for C7 at a concrete request and a state holding a token. -/
def c7Fields : List (String × JValue) :=
  [("type", JValue.str "REQUEST_PUSH_TOKEN"), ("requestId", JValue.str "w7")]

def c7St : ServiceState := { expoPushToken := some "tok-7" }

theorem request_token_idempotent_witness :
    c7St.expoPushToken = some "tok-7" ∧
    (handleBridgeRequest (some (JValue.obj c7Fields)) c7St sampleEnv).responses =
      [{ type := "PUSH_TOKEN", requestId := c7Fields.lookup "requestId"
         payload := some (JValue.obj [("token", JValue.str "tok-7")])
         error := none }] ∧
    (handleBridgeRequest (some (JValue.obj c7Fields)) c7St sampleEnv).effects =
      [] ∧
    (handleBridgeRequest (some (JValue.obj c7Fields))
        (handleBridgeRequest (some (JValue.obj c7Fields)) c7St sampleEnv).state
        sampleEnv).responses =
      (handleBridgeRequest (some (JValue.obj c7Fields)) c7St sampleEnv).responses :=
  ⟨rfl,
   (request_token_idempotent c7Fields c7St sampleEnv "tok-7" rfl rfl).1,
   (request_token_idempotent c7Fields c7St sampleEnv "tok-7" rfl rfl).2.2.1,
   (request_token_idempotent c7Fields c7St sampleEnv "tok-7" rfl rfl).2.2.2.1⟩

/-- Environment in which a repeated registration succeeds and the OS
issues a different token than the cached one. -/
def c8Env : BridgeEnv :=
  { os := { sampleOsEnv with getDevicePushTokenResult := Except.ok "token-B" }
    backend := sampleBackendEnv }

/-- Counterexample to C8: registerForPushNotifications does not guard
an already-cached token; called again in an environment where the OS
issues a different token, it overwrites the cached value. -/
theorem register_overwrites_token_counterexample :
    ({ expoPushToken := some "token-A" } : ServiceState).expoPushToken =
      some "token-A" ∧
    (registerForPushNotifications c8Env
        { expoPushToken := some "token-A" }).1.expoPushToken = some "token-B" ∧
    ("token-B" : String) ≠ "token-A" :=
  ⟨rfl, rfl, by decide⟩

/-- C8 amended: once the token field holds a non-null value, it never
returns to null; no service operation other than a further call to
registerForPushNotifications can change it, and such a call either
leaves it unchanged or overwrites it with exactly the token newly
issued by the OS device-token call, so the value only changes when the
OS issues a different token. -/
theorem token_once_set_stays_set (op : ServiceOp) (st : ServiceState) (t : String)
    (h : st.expoPushToken = some t) :
    (applyServiceOp op st).expoPushToken = some t ∨
    ∃ env tok, op = ServiceOp.register env ∧
      env.os.getDevicePushTokenResult = Except.ok tok ∧
      (applyServiceOp op st).expoPushToken = some tok := by
  cases op with
  | register env =>
    rcases registerForPushNotifications_state env st with hs | ⟨tok, htk, hs⟩
    · exact Or.inl (by simp [applyServiceOp, hs, h])
    · exact Or.inr ⟨env, tok, rfl, htk, by simp [applyServiceOp, hs]⟩
  | sendToken e s => exact Or.inl h
  | requestBackendSend e a b => exact Or.inl h
  | sendLocal nd => exact Or.inl h
  | sendPush nd => exact Or.inl h
  | sendViaBackend e nd => exact Or.inl h
  | readToken => exact Or.inl h

/-- Witness for the amended C8: a local-notification send leaves a
cached token in place. -/
theorem token_once_set_stays_set_witness :
    ({ expoPushToken := some "tok-A" } : ServiceState).expoPushToken =
      some "tok-A" ∧
    ((applyServiceOp (ServiceOp.sendLocal { title := "T", body := "B", data := none })
        { expoPushToken := some "tok-A" }).expoPushToken = some "tok-A" ∨
     ∃ env tok,
      ServiceOp.sendLocal { title := "T", body := "B", data := none } =
        ServiceOp.register env ∧
      env.os.getDevicePushTokenResult = Except.ok tok ∧
      (applyServiceOp (ServiceOp.sendLocal { title := "T", body := "B", data := none })
        { expoPushToken := some "tok-A" }).expoPushToken = some tok) :=
  ⟨rfl, token_once_set_stays_set
    (ServiceOp.sendLocal { title := "T", body := "B", data := none })
    { expoPushToken := some "tok-A" } "tok-A" rfl⟩

/-- A JS logical-or chain whose right operand is present and non-empty
always yields a present non-empty string. -/
theorem jsOrStr_some_ne (a : Option String) (d : String) (hd : d ≠ "") :
    ∃ u, jsOrStr a (some d) = some u ∧ u ≠ "" := by
  match a with
  | none => exact ⟨d, rfl, hd⟩
  | some s =>
    by_cases hs : s = ""
    · exact ⟨d, by simp [jsOrStr, hs], hd⟩
    · exact ⟨s, by simp [jsOrStr, hs], hs⟩

/-- The backend base URL always resolves to a present non-empty string,
because the fallback literal is non-empty. -/
theorem getBackendBaseUrl_nonempty (env : BackendEnv) :
    ∃ url, getBackendBaseUrl env = some url ∧ url ≠ "" :=
  jsOrStr_some_ne (jsOrStr env.cfgBackendUrl env.envBackendUrl)
    "https://5fd5bd8a6a0c.ngrok-free.app" (by decide)

/-- Backend environment whose send-notification call answers non-2xx
with an empty-string error field. -/
def c6EmptyErrEnv : BackendEnv :=
  { cfgBackendUrl := none
    envBackendUrl := none
    sendNotificationResult :=
      Except.ok { ok := false, body := JValue.obj [("error", JValue.str "")] } }

/-- Counterexample to C6: on a non-2xx response whose body carries the
server-supplied error string "" (present but falsy), the raised error's
message is the generic message, not the server-supplied string. -/
theorem backend_error_message_counterexample :
    (JValue.obj [("error", JValue.str "")]).getField "error" =
      some (JValue.str "") ∧
    (sendPushNotificationViaBackend c6EmptyErrEnv { expoPushToken := some "tok" }
        { title := "T", body := "B", data := none }).1 =
      SendViaBackendOutcome.completed
        (some "Failed to request backend notification") ∧
    ("Failed to request backend notification" : String) ≠ "" :=
  ⟨rfl, rfl, by decide⟩

/-- A body owning an error field (necessarily an object, hence not
null) fails with the truthiness-selected message. -/
theorem backendFailureMessage_of_getField (body : JValue) (v : JValue)
    (h : body.getField "error" = some v) :
    backendFailureMessage body =
      if jsTruthy v then jsStringValue v
      else "Failed to request backend notification" := by
  cases body with
  | obj fields =>
    simp only [JValue.getField] at h
    simp [backendFailureMessage, JValue.getField, h]
  | null => exact absurd h (by simp [JValue.getField])
  | bool b => exact absurd h (by simp [JValue.getField])
  | num n => exact absurd h (by simp [JValue.getField])
  | str s2 => exact absurd h (by simp [JValue.getField])
  | arr xs => exact absurd h (by simp [JValue.getField])

/-- A non-null body without an error field fails with the generic
message. -/
theorem backendFailureMessage_of_missing (body : JValue)
    (hb : body ≠ JValue.null) (h : body.getField "error" = none) :
    backendFailureMessage body = "Failed to request backend notification" := by
  cases body with
  | obj fields =>
    simp only [JValue.getField] at h
    simp [backendFailureMessage, JValue.getField, h]
  | null => exact absurd rfl hb
  | bool b => rfl
  | num n => rfl
  | str s2 => rfl
  | arr xs => rfl

/-- C6 amended: with a truthy (non-null, non-empty) cached token,
sendPushNotificationViaBackend raises to its caller exactly when the
fetch (or body decode) fails or the backend responds non-2xx; the
error is rethrown, and on a non-2xx response its message is the string
coercion of the server-supplied error field when that field is present
and truthy, the generic message when the field is absent or falsy, and
the TypeError of reading a property of null when the body is the JSON
null. -/
theorem backend_send_error_propagation (env : BackendEnv) (st : ServiceState)
    (t : String) (nd : NotificationData) (htok : st.expoPushToken = some t)
    (htne : t ≠ "") :
    ((∃ m, (sendPushNotificationViaBackend env st nd).1 =
        SendViaBackendOutcome.completed (some m)) ↔
      ((∃ e, env.sendNotificationResult = Except.error e) ∨
       (∃ r, env.sendNotificationResult = Except.ok r ∧ r.ok = false))) ∧
    (∀ e, env.sendNotificationResult = Except.error e →
      (sendPushNotificationViaBackend env st nd).1 =
        SendViaBackendOutcome.completed (some e)) ∧
    (∀ r, env.sendNotificationResult = Except.ok r → r.ok = false →
      ((∀ v, r.body.getField "error" = some v → jsTruthy v = true →
        (sendPushNotificationViaBackend env st nd).1 =
          SendViaBackendOutcome.completed (some (jsStringValue v))) ∧
       (r.body ≠ JValue.null → r.body.getField "error" = none →
        (sendPushNotificationViaBackend env st nd).1 =
          SendViaBackendOutcome.completed
            (some "Failed to request backend notification")) ∧
       (∀ v, r.body.getField "error" = some v → jsTruthy v = false →
        (sendPushNotificationViaBackend env st nd).1 =
          SendViaBackendOutcome.completed
            (some "Failed to request backend notification")) ∧
       (r.body = JValue.null →
        (sendPushNotificationViaBackend env st nd).1 =
          SendViaBackendOutcome.completed
            (some "Cannot read properties of null reading error")))) := by
  obtain ⟨url, hu, hune⟩ := getBackendBaseUrl_nonempty env
  rcases hres : env.sendNotificationResult with e | r
  · refine ⟨⟨fun _ => Or.inl ⟨e, rfl⟩, fun _ => ⟨e, ?_⟩⟩,
      fun e2 he2 => ?_, fun r hr => by simp at hr⟩
    · simp [sendPushNotificationViaBackend, htok, htne, hu, hune, hres]
    · cases he2
      simp [sendPushNotificationViaBackend, htok, htne, hu, hune, hres]
  · cases hok : r.ok
    · have hmain : (sendPushNotificationViaBackend env st nd).1 =
          SendViaBackendOutcome.completed (some (backendFailureMessage r.body)) := by
        simp [sendPushNotificationViaBackend, htok, htne, hu, hune, hres, hok]
      refine ⟨⟨fun _ => Or.inr ⟨r, rfl, hok⟩, fun _ => ⟨_, hmain⟩⟩,
        fun e2 he2 => by simp at he2,
        fun r2 hr2 _ => ?_⟩
      cases hr2
      refine ⟨fun v hv htv => ?_, fun hbn hn => ?_, fun v hv htv => ?_, fun hb => ?_⟩
      · rw [hmain, backendFailureMessage_of_getField r.body v hv, htv]
        simp
      · rw [hmain, backendFailureMessage_of_missing r.body hbn hn]
      · rw [hmain, backendFailureMessage_of_getField r.body v hv, htv]
        simp
      · rw [hmain, hb]
        rfl
    · refine ⟨⟨fun hm => ?_, fun hc => ?_⟩,
        fun e2 he2 => by simp at he2,
        fun r2 hr2 hok2 => by
          cases hr2; rw [hok] at hok2; exact absurd hok2 (by simp)⟩
      · rcases hm with ⟨m, hm⟩
        have : (sendPushNotificationViaBackend env st nd).1 =
            SendViaBackendOutcome.completed none := by
          simp [sendPushNotificationViaBackend, htok, htne, hu, hune, hres, hok]
        rw [this] at hm
        exact absurd hm (by simp)
      · rcases hc with ⟨e, he⟩ | ⟨r2, hr2, hok2⟩
        · simp at he
        · cases hr2
          rw [hok] at hok2
          exact absurd hok2 (by simp)

/-- Witness for the amended C6: a non-2xx response with the truthy
server-supplied error string boom makes the relay rethrow with exactly
that message. -/
def c6BoomEnv : BackendEnv :=
  { cfgBackendUrl := none
    envBackendUrl := none
    sendNotificationResult :=
      Except.ok { ok := false, body := JValue.obj [("error", JValue.str "boom")] } }

theorem backend_send_error_propagation_witness :
    ({ expoPushToken := some "tok" } : ServiceState).expoPushToken = some "tok" ∧
    ("tok" : String) ≠ "" ∧
    (sendPushNotificationViaBackend c6BoomEnv { expoPushToken := some "tok" }
        { title := "T", body := "B", data := none }).1 =
      SendViaBackendOutcome.completed (some (jsStringValue (JValue.str "boom"))) :=
  ⟨rfl, by decide,
   ((backend_send_error_propagation c6BoomEnv { expoPushToken := some "tok" }
      "tok" { title := "T", body := "B", data := none } rfl (by decide)).2.2
      { ok := false, body := JValue.obj [("error", JValue.str "boom")] } rfl rfl).1
      (JValue.str "boom") rfl rfl⟩

/-- Counterexample to C9: the empty-string token is a cached, non-null
PushToken, yet — being falsy under the source's truthiness guard — the
readiness transition posts nothing for it. -/
theorem readiness_empty_token_counterexample :
    (some "" : Option String) ≠ none ∧
    webReadyEffect true (some "") = [] ∧
    handleLoadEnd (some "") false = (true, []) :=
  ⟨by simp, rfl, rfl⟩

/-- C9 amended: the readiness handshake pushes nothing before the
readiness flag is set and nothing when no token is cached; the
false-to-true transition with a cached truthy (non-empty) token posts
exactly one unsolicited PUSH_TOKEN message with no requestId — a
cached empty-string token, being falsy, is not pushed — and setting
the already-true flag again posts nothing. -/
theorem readiness_handshake (t : String) (ht : t ≠ "") :
    webReadyEffect false (some t) = [] ∧
    webReadyEffect false none = [] ∧
    webReadyEffect true none = [] ∧
    handleLoadEnd (some t) false =
      (true, [{ type := "PUSH_TOKEN", requestId := none
                payload := some (JValue.obj [("token", JValue.str t)])
                error := none }]) ∧
    handleLoadEnd (some t) true = (true, []) ∧
    handleLoadEnd none false = (true, []) ∧
    handleLoadEnd none true = (true, []) := by
  refine ⟨rfl, rfl, rfl, ?_, rfl, rfl, rfl⟩
  simp [handleLoadEnd, webReadyEffect, ht]

/-- Witness for the amended C9 at a concrete non-empty token. -/
theorem readiness_handshake_witness :
    ("tok-9" : String) ≠ "" ∧
    handleLoadEnd (some "tok-9") false =
      (true, [{ type := "PUSH_TOKEN", requestId := none
                payload := some (JValue.obj [("token", JValue.str "tok-9")])
                error := none }]) ∧
    handleLoadEnd (some "tok-9") true = (true, []) :=
  ⟨by decide,
   (readiness_handshake "tok-9" (by decide)).2.2.2.1,
   (readiness_handshake "tok-9" (by decide)).2.2.2.2.1⟩

/-- C10: the backend URL chain always yields a present, non-empty (thus
truthy) string, so the no-backend-URL early-return branches of
sendTokenToBackend and sendPushNotificationViaBackend are unreachable:
the former always performs its save-token POST, and the latter, given a
token, never takes the missing-configuration skip. -/
theorem backend_url_fallback_total (env : BackendEnv) :
    ∃ url, getBackendBaseUrl env = some url ∧ url ≠ "" ∧
      (∀ tok, sendTokenToBackend env tok = [Effect.httpSaveToken url tok]) ∧
      (∀ st nd t, st.expoPushToken = some t →
        (sendPushNotificationViaBackend env st nd).1 ≠
          SendViaBackendOutcome.missingConfigSkip) := by
  obtain ⟨url, hu, hne⟩ := getBackendBaseUrl_nonempty env
  refine ⟨url, hu, hne, ?_, ?_⟩
  · intro tok
    simp [sendTokenToBackend, hu, hne]
  · intro st nd t htok
    by_cases ht : t = ""
    · simp [sendPushNotificationViaBackend, htok, ht]
    · rcases hres : env.sendNotificationResult with e | r
      · simp [sendPushNotificationViaBackend, htok, ht, hu, hne, hres]
      · cases hok : r.ok <;>
          simp [sendPushNotificationViaBackend, htok, ht, hu, hne, hres, hok]

/-- Witness for C10: with no overrides configured, the fallback URL is
used and a token-bearing send is not skipped for configuration. -/
theorem backend_url_fallback_total_witness :
    ({ expoPushToken := some "tok" } : ServiceState).expoPushToken = some "tok" ∧
    (sendPushNotificationViaBackend sampleBackendEnv
        { expoPushToken := some "tok" }
        { title := "T", body := "B", data := none }).1 ≠
      SendViaBackendOutcome.missingConfigSkip := by
  obtain ⟨url, hu, hne, hs, hp⟩ := backend_url_fallback_total sampleBackendEnv
  exact ⟨rfl, hp { expoPushToken := some "tok" }
    { title := "T", body := "B", data := none } "tok" rfl⟩
